import Mathlib

/-!
Shallow embedding of the BookReviewApp backend (Express + Mongoose) for
verification of its rating-aggregation and review-mutation logic.

Sources embedded:
  * the Review model (schema fields reviewedBook / reviewAuthor / starRating /
    reviewContent, the unique compound index one_review_per_user_per_book,
    the pre-save content cleanup and the post-save / post-findOneAndDelete
    hooks calling Book.recalculateRating);
  * the Book model (schema fields, the communityRating setter that rounds to
    one decimal, the pre-save clamp, and the recalculateRating instance
    method, which queries reviews by a field named bookId and sums a field
    named rating);
  * the review router (updateBookRating helper and the POST / PUT / DELETE
    handlers);
  * the book router (create, update and delete handlers).

Modelling conventions:
  * Mongo ObjectIds are modelled as Nat.
  * The stored communityRating is a float with one decimal digit; it is
    modelled exactly as that value in tenths (a Nat in 0..50).  The code
    computes Math.round(average * 10) / 10 where average = sum / count; for
    star ratings (integers 1..5) and any review count the floating-point
    computation agrees with exact rational rounding half-up, which in tenths
    is (20 * sum + count) / (2 * count) using integer division.
  * A MongoDB filter { field: v } matches the documents that carry a field of
    that name equal to v.  Review documents are modelled with a field lookup
    function so that filters written against non-schema field names (as in
    recalculateRating and the book-delete cascade, which use bookId) match
    no documents, exactly as they do against the real collection.
  * Request ratings are modelled as Rat so that the isInt validator is
    falsifiable; request texts are Strings.  The express-validator trim
    sanitizer and the schema trim setter are the JS trim, modelled as jsTrim.
  * Each route handler is a pure function from a database state and request
    data to the new state and a result constructor mirroring the HTTP
    outcome (400 validator failure, 404, 403, 400 duplicate, 500 schema
    validation failure, success).
-/

namespace BookReviewApp

/-- A review document, with the fields of the Review schema that the
aggregation and authorization logic reads. -/
structure ReviewDoc where
  rid : Nat
  reviewedBook : Nat
  reviewAuthor : Nat
  starRating : Nat
  reviewContent : String
  deriving Repr, DecidableEq

/-- A book document, with the fields of the Book schema that the routes
read or write.  communityRating is stored in tenths (0..50 for 0.0..5.0). -/
structure BookDoc where
  bid : Nat
  bookTitle : String
  authorName : String
  bookSummary : String
  literaryGenre : String
  publicationYear : Int
  sharedBy : Nat
  communityRating : Nat
  reviewCount : Nat
  deriving Repr, DecidableEq

/-- The persistent state: the books and reviews collections. -/
structure DB where
  books : List BookDoc
  reviews : List ReviewDoc
  deriving Repr, DecidableEq

/-- MongoDB field lookup on a review document.  A filter on a field name
that is not in the Review schema (such as bookId or rating) finds no value,
so an equality filter on it matches no review document. -/
def ReviewDoc.getField (r : ReviewDoc) (name : String) : Option Nat :=
  if name = "reviewedBook" then some r.reviewedBook
  else if name = "reviewAuthor" then some r.reviewAuthor
  else if name = "starRating" then some r.starRating
  else none

/-- Book.findById. -/
def findBook (db : DB) (bookId : Nat) : Option BookDoc :=
  db.books.find? (fun b => b.bid == bookId)

/-- Review.findById. -/
def findReview (db : DB) (reviewId : Nat) : Option ReviewDoc :=
  db.reviews.find? (fun r => r.rid == reviewId)

/-- Review.find({ reviewedBook: bookId }), the query used by the review
router when recomputing a book aggregate. -/
def bookReviews (reviews : List ReviewDoc) (bookId : Nat) : List ReviewDoc :=
  reviews.filter (fun r => r.getField "reviewedBook" == some bookId)

/-- reviews.reduce((sum, review) => sum + review.starRating, 0). -/
def sumStars (rs : List ReviewDoc) : Nat :=
  rs.foldl (fun s r => s + r.starRating) 0

/-- Math.round((sum / count) * 10) / 10, expressed exactly in tenths:
round-half-up of 10 * sum / count. -/
def roundTenths (sum count : Nat) : Nat :=
  (20 * sum + count) / (2 * count)

/-- The aggregate value the review router computes: totalReviews > 0
? Math.round((sum / totalReviews) * 10) / 10 : 0, in tenths. -/
def avgTenths (rs : List ReviewDoc) : Nat :=
  if rs.length > 0 then roundTenths (sumStars rs) rs.length else 0

/-- The updateBookRating helper of the review router: fetch the reviews
whose reviewedBook matches, then Book.findByIdAndUpdate the book with
communityRating and reviewCount computed from them.  findByIdAndUpdate is a
no-op when no book has that id. -/
def updateBookRating (db : DB) (bookId : Nat) : DB :=
  { db with
    books := db.books.map (fun b =>
      if b.bid == bookId then
        { b with
          communityRating := avgTenths (bookReviews db.reviews bookId)
          reviewCount := (bookReviews db.reviews bookId).length }
      else b) }

/-- Review.find({ bookId: id }), the query used by Book.recalculateRating.
The Review schema has no bookId field, so the filter matches the review
documents whose (non-existent) bookId field equals id. -/
def reviewsByBookIdField (reviews : List ReviewDoc) (bookId : Nat) : List ReviewDoc :=
  reviews.filter (fun r => r.getField "bookId" == some bookId)

/-- reviews.reduce((sum, review) => sum + review.rating, 0) inside
recalculateRating.  The rating field is likewise not in the Review schema;
the lookup yields no value (in JS the sum would be NaN, but the fold only
runs over the matched reviews, and the match is always empty). -/
def sumRatingField (rs : List ReviewDoc) : Nat :=
  rs.foldl (fun s r => s + ((r.getField "rating").getD 0)) 0

/-- The Book pre-save clamp composed with the communityRating setter: the
setter rounds (already exact in tenths) and the clamp forces the value into
0..5, i.e. 0..50 tenths. -/
def clampTenths (v : Nat) : Nat :=
  if v > 50 then 50 else v

/-- Book.prototype.recalculateRating, run on the book with id bookId: query
the reviews by the bookId field, then either zero the aggregates (no match)
or store count and average, and save the book. -/
def recalculateRating (db : DB) (bookId : Nat) : DB :=
  let matched := reviewsByBookIdField db.reviews bookId
  let newRating : Nat :=
    if matched.length == 0 then 0
    else roundTenths (sumRatingField matched) matched.length
  let newCount : Nat := if matched.length == 0 then 0 else matched.length
  { db with
    books := db.books.map (fun b =>
      if b.bid == bookId then
        { b with communityRating := clampTenths newRating, reviewCount := newCount }
      else b) }

/-- The post-save / post-findOneAndDelete middleware of the Review schema:
look the book up and, when it still exists, run recalculateRating; when the
book is gone, do nothing (errors are caught and only logged). -/
def reviewSaveHook (db : DB) (bookId : Nat) : DB :=
  match findBook db bookId with
  | some _ => recalculateRating db bookId
  | none => db

/-- Outcome of a review-route request, mirroring the HTTP responses of the
review router: 400 from express-validator, 404 book or review not found,
400 duplicate, 403 non-author, 500 from a Mongoose validation failure on
save or findByIdAndUpdate, 200/201 success. -/
inductive ReviewResult where
  | validationError
  | bookNotFound
  | reviewNotFound
  | duplicateReview
  | forbidden
  | schemaError
  | ok
  deriving Repr, DecidableEq

/-- body("rating").isInt({ min: 1, max: 5 }). -/
def ratingValid (q : Rat) : Bool :=
  q.den == 1 && 1 ≤ q.num && q.num ≤ 5

/-- The JavaScript String.prototype.trim / express-validator trim
sanitizer: drop whitespace from both ends.  (Written over the character
list rather than with String.trim so that concrete runs reduce inside the
kernel; the two agree on the texts considered here.) -/
def jsTrim (s : String) : String :=
  ⟨((s.data.dropWhile Char.isWhitespace).reverse.dropWhile Char.isWhitespace).reverse⟩

/-- body("reviewText").trim().isLength({ min: 1, max: 500 }), applied to the
sanitized (trimmed) text. -/
def routeTextValid (t : String) : Bool :=
  1 ≤ (jsTrim t).length && (jsTrim t).length ≤ 500

/-- The \w character class of the reviewContent custom validator. -/
def isWordChar (c : Char) : Bool :=
  c.isAlphanum || c == '_'

/-- The Review schema validation of reviewContent: minlength 10,
maxlength 1000, and at least 5 characters left after stripping non-word
characters. -/
def schemaContentValid (c : String) : Bool :=
  10 ≤ c.length && c.length ≤ 1000 &&
    5 ≤ (c.toList.filter isWordChar).length

/-- Split a character list into maximal whitespace-free words; cur is the
reversed word being accumulated. -/
def wordsAux : List Char → List Char → List (List Char)
  | [], cur => if cur.isEmpty then [] else [cur.reverse]
  | c :: cs, cur =>
    if c.isWhitespace then
      if cur.isEmpty then wordsAux cs [] else cur.reverse :: wordsAux cs []
    else wordsAux cs (c :: cur)

/-- Join words with single spaces. -/
def joinSpace : List (List Char) → List Char
  | [] => []
  | [w] => w
  | w :: ws => w ++ ' ' :: joinSpace ws

/-- The Review pre-save cleanup: content.replace(whitespace runs, one
space).trim(). -/
def collapseWs (s : String) : String :=
  ⟨joinSpace (wordsAux s.data [])⟩

/-- Review.findOne({ reviewedBook: bookId, reviewAuthor: userId }), the
duplicate-review lookup of the POST handler. -/
def findReviewPair (reviews : List ReviewDoc) (bookId userId : Nat) : Option ReviewDoc :=
  reviews.find? (fun r =>
    r.getField "reviewedBook" == some bookId && r.getField "reviewAuthor" == some userId)

/-- A fresh document id for an insert. -/
def nextReviewId (reviews : List ReviewDoc) : Nat :=
  (reviews.foldl (fun m r => max m r.rid) 0) + 1

/-- Store-level insert into the reviews collection, enforcing the unique
compound index one_review_per_user_per_book on (reviewedBook, reviewAuthor):
the insert is refused when a document with the same pair already exists. -/
def insertReview (reviews : List ReviewDoc) (r : ReviewDoc) : Option (List ReviewDoc) :=
  if reviews.any (fun x => x.reviewedBook == r.reviewedBook && x.reviewAuthor == r.reviewAuthor)
  then none
  else some (reviews ++ [r])

/-- POST /api/reviews: express-validator checks, book-existence check,
duplicate lookup, document construction, save (schema validation, pre-save
cleanup, store insert under the unique index, post-save hook), then
updateBookRating.  The requester id comes from the auth middleware, so the
reviewAuthor is an existing user. -/
def createReview (db : DB) (bookId userId : Nat) (rating : Rat) (text : String) :
    DB × ReviewResult :=
  if !(ratingValid rating && routeTextValid text) then (db, .validationError)
  else
    match findBook db bookId with
    | none => (db, .bookNotFound)
    | some _ =>
      match findReviewPair db.reviews bookId userId with
      | some _ => (db, .duplicateReview)
      | none =>
        if !(schemaContentValid (jsTrim text)) then (db, .schemaError)
        else
          let r : ReviewDoc :=
            { rid := nextReviewId db.reviews
              reviewedBook := bookId
              reviewAuthor := userId
              starRating := rating.num.toNat
              reviewContent := collapseWs (jsTrim text) }
          match insertReview db.reviews r with
          | none => (db, .schemaError)
          | some reviews1 =>
            let db1 : DB := { db with reviews := reviews1 }
            (updateBookRating (reviewSaveHook db1 bookId) bookId, .ok)

/-- The optional express-validator checks of PUT /api/reviews/:id on the
fields present in the request body. -/
def reviewPatchValid (rating? : Option Rat) (text? : Option String) : Bool :=
  (match rating? with | none => true | some q => ratingValid q) &&
  (match text? with | none => true | some t => routeTextValid t)

/-- PUT /api/reviews/:id: optional express-validator checks, findById,
author check, findByIdAndUpdate with runValidators (no save hooks fire on
findOneAndUpdate), then updateBookRating for the reviewedBook of the
fetched review. -/
def updateReview (db : DB) (reviewId requesterId : Nat)
    (rating? : Option Rat) (text? : Option String) : DB × ReviewResult :=
  if !reviewPatchValid rating? text? then (db, .validationError)
  else
    match findReview db reviewId with
    | none => (db, .reviewNotFound)
    | some review =>
      if review.reviewAuthor != requesterId then (db, .forbidden)
      else
        let contentOk :=
          match text? with | none => true | some t => schemaContentValid (jsTrim t)
        if !contentOk then (db, .schemaError)
        else
          let applyPatch := fun (r : ReviewDoc) =>
            let r1 := match rating? with
              | none => r
              | some q => { r with starRating := q.num.toNat }
            match text? with
            | none => r1
            | some t => { r1 with reviewContent := jsTrim t }
          let db1 : DB :=
            { db with reviews := db.reviews.map (fun r =>
                if r.rid == reviewId then applyPatch r else r) }
          (updateBookRating db1 review.reviewedBook, .ok)

/-- DELETE /api/reviews/:id: findById, author check, capture of the
reviewedBook, findByIdAndDelete (which fires the post-findOneAndDelete
hook), then updateBookRating for the captured book id. -/
def deleteReview (db : DB) (reviewId requesterId : Nat) : DB × ReviewResult :=
  match findReview db reviewId with
  | none => (db, .reviewNotFound)
  | some review =>
    if review.reviewAuthor != requesterId then (db, .forbidden)
    else
      let db1 : DB :=
        { db with reviews := db.reviews.filter (fun r => !(r.rid == reviewId)) }
      (updateBookRating (reviewSaveHook db1 review.reviewedBook) review.reviewedBook, .ok)

/-- The three review write operations, as one alphabet of state
transitions. -/
inductive ReviewOp where
  | create (bookId userId : Nat) (rating : Rat) (text : String)
  | update (reviewId requesterId : Nat) (rating? : Option Rat) (text? : Option String)
  | delete (reviewId requesterId : Nat)
  deriving Repr, DecidableEq

/-- Dispatch of a review operation to its route handler. -/
def applyReviewOp (db : DB) : ReviewOp → DB × ReviewResult
  | .create bookId userId rating text => createReview db bookId userId rating text
  | .update reviewId requesterId rating? text? => updateReview db reviewId requesterId rating? text?
  | .delete reviewId requesterId => deleteReview db reviewId requesterId

/-- The book whose aggregate a review operation affects: the target book of
a create, or the reviewedBook of the review an update or delete fetches. -/
def affectedBook (db : DB) : ReviewOp → Option Nat
  | .create bookId _ _ _ => some bookId
  | .update reviewId _ _ _ => (findReview db reviewId).map ReviewDoc.reviewedBook
  | .delete reviewId _ => (findReview db reviewId).map ReviewDoc.reviewedBook

/-- Outcome of a book-route request. -/
inductive BookResult where
  | validationError
  | notFound
  | forbidden
  | schemaError
  | ok
  deriving Repr, DecidableEq

/-- The genre list accepted by the book router validators. -/
def routeGenres : List String :=
  ["Fiction", "Non-Fiction", "Mystery", "Romance", "Sci-Fi", "Fantasy",
   "Biography", "History", "Self-Help", "Other"]

/-- The request body of the book create route. -/
structure BookInput where
  title : String
  author : String
  description : String
  genre : String
  publishedYear : Int
  deriving Repr, DecidableEq

/-- The express-validator checks of POST /api/books: non-empty trimmed
title, author and description, genre from the list, publishedYear an
integer between 1000 and the current year. -/
def bookRouteValid (inp : BookInput) (nowYear : Int) : Bool :=
  1 ≤ (jsTrim inp.title).length &&
  1 ≤ (jsTrim inp.author).length &&
  1 ≤ (jsTrim inp.description).length &&
  routeGenres.contains inp.genre &&
  1000 ≤ inp.publishedYear && inp.publishedYear ≤ nowYear

/-- The Book schema validation run on save: bookTitle 1..200 characters
containing an alphanumeric, authorName 2..100 containing a letter,
bookSummary 10..1000, publicationYear within 1000..nowYear+1 and the
custom validator 1400..nowYear+1.  The schema genre enum is a superset of
the route list, so it is already satisfied here. -/
def bookSchemaValid (b : BookDoc) (nowYear : Int) : Bool :=
  1 ≤ b.bookTitle.length && b.bookTitle.length ≤ 200 &&
  b.bookTitle.toList.any Char.isAlphanum &&
  2 ≤ b.authorName.length && b.authorName.length ≤ 100 &&
  b.authorName.toList.any Char.isAlpha &&
  10 ≤ b.bookSummary.length && b.bookSummary.length ≤ 1000 &&
  1000 ≤ b.publicationYear && b.publicationYear ≤ nowYear + 1 &&
  1400 ≤ b.publicationYear

/-- A fresh document id for a book insert. -/
def nextBookId (books : List BookDoc) : Nat :=
  (books.foldl (fun m b => max m b.bid) 0) + 1

/-- POST /api/books: validators, then new Book({ bookTitle, authorName,
bookSummary, literaryGenre, publicationYear, sharedBy }) and save.  The
request carries no rating fields: communityRating and reviewCount take
their schema defaults of 0. -/
def createBook (db : DB) (inp : BookInput) (userId : Nat) (nowYear : Int) :
    DB × BookResult :=
  if !(bookRouteValid inp nowYear) then (db, .validationError)
  else
    let b : BookDoc :=
      { bid := nextBookId db.books
        bookTitle := jsTrim inp.title
        authorName := jsTrim inp.author
        bookSummary := jsTrim inp.description
        literaryGenre := inp.genre
        publicationYear := inp.publishedYear
        sharedBy := userId
        communityRating := 0
        reviewCount := 0 }
    if !(bookSchemaValid b nowYear) then (db, .schemaError)
    else ({ db with books := db.books ++ [b] }, .ok)

/-- The optional patch of PUT /api/books/:id. -/
structure BookPatch where
  title? : Option String
  author? : Option String
  description? : Option String
  genre? : Option String
  publishedYear? : Option Int
  deriving Repr, DecidableEq

/-- The optional express-validator checks of PUT /api/books/:id. -/
def bookPatchValid (p : BookPatch) (nowYear : Int) : Bool :=
  (match p.title? with | none => true | some t => 1 ≤ (jsTrim t).length) &&
  (match p.author? with | none => true | some a => 1 ≤ (jsTrim a).length) &&
  (match p.description? with | none => true | some d => 1 ≤ (jsTrim d).length) &&
  (match p.genre? with | none => true | some g => routeGenres.contains g) &&
  (match p.publishedYear? with
    | none => true
    | some y => 1000 ≤ y && y ≤ nowYear)

/-- The updateData object built by PUT /api/books/:id: only the five
content fields are mapped onto schema paths; the aggregate fields never
appear in it. -/
def applyBookPatch (p : BookPatch) (b : BookDoc) : BookDoc :=
  let b1 := match p.title? with | none => b | some t => { b with bookTitle := jsTrim t }
  let b2 := match p.author? with | none => b1 | some a => { b1 with authorName := jsTrim a }
  let b3 := match p.description? with | none => b2 | some d => { b2 with bookSummary := jsTrim d }
  let b4 := match p.genre? with | none => b3 | some g => { b3 with literaryGenre := g }
  match p.publishedYear? with | none => b4 | some y => { b4 with publicationYear := y }

/-- PUT /api/books/:id: validators, findById, creator check, then
findByIdAndUpdate with $set of updateData under runValidators. -/
def updateBook (db : DB) (bookId requesterId : Nat) (p : BookPatch) (nowYear : Int) :
    DB × BookResult :=
  if !(bookPatchValid p nowYear) then (db, .validationError)
  else
    match findBook db bookId with
    | none => (db, .notFound)
    | some book =>
      if book.sharedBy != requesterId then (db, .forbidden)
      else
        if !(bookSchemaValid (applyBookPatch p book) nowYear) then (db, .schemaError)
        else
          ({ db with books := db.books.map (fun b =>
              if b.bid == bookId then applyBookPatch p b else b) }, .ok)

/-- DELETE /api/books/:id: findById, creator check, then
Review.deleteMany({ bookId: req.params.id }) — a filter on a field name the
Review schema does not have — and Book.findByIdAndDelete. -/
def deleteBook (db : DB) (bookId requesterId : Nat) : DB × BookResult :=
  match findBook db bookId with
  | none => (db, .notFound)
  | some book =>
    if book.sharedBy != requesterId then (db, .forbidden)
    else
      ({ books := db.books.filter (fun b => !(b.bid == bookId))
         reviews := db.reviews.filter (fun r => !(r.getField "bookId" == some bookId)) },
       .ok)

theorem updateBookRating_reviews (db : DB) (k : Nat) :
    (updateBookRating db k).reviews = db.reviews := rfl

theorem updateBookRating_sets (db : DB) (k : Nat) (b : BookDoc)
    (hb : b ∈ (updateBookRating db k).books) (hk : b.bid = k) :
    b.communityRating = avgTenths (bookReviews db.reviews k) ∧
    b.reviewCount = (bookReviews db.reviews k).length := by
  simp only [updateBookRating, List.mem_map] at hb
  obtain ⟨a, ha, rfl⟩ := hb
  by_cases h : a.bid = k
  · simp [h]
  · simp [h] at hk

theorem applyReviewOp_ok_shape (db : DB) (op : ReviewOp) (db' : DB) (k : Nat)
    (h : applyReviewOp db op = (db', ReviewResult.ok))
    (hk : affectedBook db op = some k) :
    ∃ dbm : DB, db' = updateBookRating dbm k := by
  cases op with
  | create bookId userId q t =>
    simp only [affectedBook, Option.some.injEq] at hk
    subst hk
    simp only [applyReviewOp, createReview] at h
    split at h
    · simp at h
    · split at h
      · simp at h
      · split at h
        · simp at h
        · split at h
          · simp at h
          · split at h
            · simp at h
            · injection h with h1 _
              exact ⟨_, h1.symm⟩
  | update rid uid q? t? =>
    simp only [applyReviewOp, updateReview] at h
    simp only [affectedBook] at hk
    split at h
    · simp at h
    · split at h
      · simp at h
      · rename_i review heq
        rw [heq] at hk
        simp only [Option.map_some', Option.some.injEq] at hk
        split at h
        · simp at h
        · split at h
          · simp at h
          · injection h with h1 _
            rw [← h1, hk]
            exact ⟨_, rfl⟩
  | delete rid uid =>
    simp only [applyReviewOp, deleteReview] at h
    simp only [affectedBook] at hk
    split at h
    · simp at h
    · rename_i review heq
      rw [heq] at hk
      simp only [Option.map_some', Option.some.injEq] at hk
      split at h
      · simp at h
      · injection h with h1 _
        rw [← h1, hk]
        exact ⟨_, rfl⟩

/-- C1: after a successful review create, update or delete affecting book
k, the stored communityRating (the averageRating exposed to clients) of
every book record with id k equals the mean of the star ratings of the
reviews referencing k in the resulting state, rounded to one decimal place
(expressed exactly in tenths), and equals 0 when no review references k. -/
theorem c1_average_rating_consistent (db : DB) (op : ReviewOp) (db' : DB) (k : Nat)
    (h : applyReviewOp db op = (db', ReviewResult.ok))
    (hk : affectedBook db op = some k)
    (b : BookDoc) (hb : b ∈ db'.books) (hbid : b.bid = k) :
    b.communityRating = avgTenths (bookReviews db'.reviews k) := by
  obtain ⟨dbm, rfl⟩ := applyReviewOp_ok_shape db op db' k h hk
  exact (updateBookRating_sets dbm k b hb hbid).1

/-- C2: after a successful review create, update or delete affecting book
k, the stored reviewCount (the totalReviews exposed to clients) of every
book record with id k equals the number of review records whose
reviewedBook reference equals k in the resulting state. -/
theorem c2_review_count_consistent (db : DB) (op : ReviewOp) (db' : DB) (k : Nat)
    (h : applyReviewOp db op = (db', ReviewResult.ok))
    (hk : affectedBook db op = some k)
    (b : BookDoc) (hb : b ∈ db'.books) (hbid : b.bid = k) :
    b.reviewCount = (bookReviews db'.reviews k).length := by
  obtain ⟨dbm, rfl⟩ := applyReviewOp_ok_shape db op db' k h hk
  exact (updateBookRating_sets dbm k b hb hbid).2

/-- A concrete book, database and operation used by the witnesses. -/
def bookDune : BookDoc :=
  { bid := 1, bookTitle := "Dune", authorName := "Frank Herbert",
    bookSummary := "A desert planet epic story", literaryGenre := "Sci-Fi",
    publicationYear := 1965, sharedBy := 10, communityRating := 0, reviewCount := 0 }

def dbDune : DB := { books := [bookDune], reviews := [] }

def opCreate20 : ReviewOp := ReviewOp.create 1 20 5 "an absolutely wonderful read"

def dbAfterCreate : DB := (applyReviewOp dbDune opCreate20).1

def bookDuneAfter : BookDoc := { bookDune with communityRating := 50, reviewCount := 1 }

theorem c1_witness :
    bookDuneAfter.communityRating = avgTenths (bookReviews dbAfterCreate.reviews 1) :=
  c1_average_rating_consistent dbDune opCreate20 dbAfterCreate 1 (by decide) (by decide)
    bookDuneAfter (by decide) (by decide)

theorem c2_witness :
    bookDuneAfter.reviewCount = (bookReviews dbAfterCreate.reviews 1).length :=
  c2_review_count_consistent dbDune opCreate20 dbAfterCreate 1 (by decide) (by decide)
    bookDuneAfter (by decide) (by decide)

theorem map_id_of_eq {α : Type} (l : List α) (f : α → α) (h : ∀ a ∈ l, f a = a) :
    l.map f = l := by
  induction l with
  | nil => rfl
  | cons x xs ih =>
    simp only [List.map_cons, List.cons.injEq]
    exact ⟨h x (List.mem_cons_self x xs), ih (fun a ha => h a (List.mem_cons_of_mem x ha))⟩

theorem updateBookRating_absent (db : DB) (k : Nat) (h : findBook db k = none) :
    updateBookRating db k = db := by
  unfold findBook at h
  have hall := List.find?_eq_none.mp h
  unfold updateBookRating
  have hmap : db.books.map (fun b =>
      if b.bid == k then
        { b with
          communityRating := avgTenths (bookReviews db.reviews k)
          reviewCount := (bookReviews db.reviews k).length }
      else b) = db.books :=
    map_id_of_eq _ _ (fun b hb => if_neg (by simpa using hall b hb))
  rw [hmap]

theorem reviewSaveHook_absent (db : DB) (k : Nat) (h : findBook db k = none) :
    reviewSaveHook db k = db := by
  unfold reviewSaveHook
  rw [h]

/-- C9: the aggregate recompute for book k writes only the two derived
fields: it never touches the reviews collection, keeps every book record in
place with its identity and content fields intact, and leaves every book
whose id differs from k entirely unchanged. -/
theorem c9_recompute_frame (db : DB) (k i : Nat) :
    (updateBookRating db k).reviews = db.reviews ∧
    (updateBookRating db k).books.length = db.books.length ∧
    (updateBookRating db k).books[i]?.map BookDoc.bid = db.books[i]?.map BookDoc.bid ∧
    (updateBookRating db k).books[i]?.map BookDoc.bookTitle = db.books[i]?.map BookDoc.bookTitle ∧
    (updateBookRating db k).books[i]?.map BookDoc.authorName = db.books[i]?.map BookDoc.authorName ∧
    (updateBookRating db k).books[i]?.map BookDoc.bookSummary = db.books[i]?.map BookDoc.bookSummary ∧
    (updateBookRating db k).books[i]?.map BookDoc.literaryGenre = db.books[i]?.map BookDoc.literaryGenre ∧
    (updateBookRating db k).books[i]?.map BookDoc.publicationYear = db.books[i]?.map BookDoc.publicationYear ∧
    (updateBookRating db k).books[i]?.map BookDoc.sharedBy = db.books[i]?.map BookDoc.sharedBy ∧
    (∀ b : BookDoc, db.books[i]? = some b → b.bid ≠ k →
      (updateBookRating db k).books[i]? = some b) := by
  rcases hg : db.books[i]? with _ | b
  · simp [updateBookRating, List.getElem?_map, hg]
  · refine ⟨rfl, by simp [updateBookRating], ?_⟩
    simp only [updateBookRating, List.getElem?_map, hg, Option.map_some']
    by_cases h : b.bid = k
    · simp [h]
    · simp [h]

theorem c9_witness :
    (updateBookRating dbAfterCreate 2).reviews = dbAfterCreate.reviews ∧
    (updateBookRating dbAfterCreate 2).books[0]? = some bookDuneAfter :=
  ⟨(c9_recompute_frame dbAfterCreate 2 0).1,
   (c9_recompute_frame dbAfterCreate 2 0).2.2.2.2.2.2.2.2.2 bookDuneAfter
     (by decide) (by decide)⟩

/-- C6: when the book referenced by a just-mutated review no longer exists,
the aggregate recompute is a no-op, not an error: updateBookRating leaves
the state untouched, the hook-driven recalculateRating is skipped, and a
review delete whose book has vanished still completes successfully, removing
the review and reporting ok. -/
theorem c6_recompute_noop_when_book_absent :
    (∀ (db : DB) (k : Nat), findBook db k = none → updateBookRating db k = db) ∧
    (∀ (db : DB) (k : Nat), findBook db k = none → reviewSaveHook db k = db) ∧
    (∀ (db : DB) (rid uid : Nat) (review : ReviewDoc),
      findReview db rid = some review → review.reviewAuthor = uid →
      findBook db review.reviewedBook = none →
      deleteReview db rid uid =
        ({ db with reviews := db.reviews.filter (fun r => !(r.rid == rid)) },
         ReviewResult.ok)) := by
  refine ⟨updateBookRating_absent, reviewSaveHook_absent, ?_⟩
  intro db rid uid review hfind hauth hbook
  have hbook1 :
      findBook { db with reviews := db.reviews.filter (fun r => !(r.rid == rid)) }
        review.reviewedBook = none := hbook
  simp only [deleteReview, hfind, hauth, bne_self_eq_false, Bool.false_eq_true, if_false,
    reviewSaveHook_absent _ _ hbook1, updateBookRating_absent _ _ hbook1]

def reviewOrphan : ReviewDoc :=
  { rid := 9, reviewedBook := 7, reviewAuthor := 20, starRating := 4,
    reviewContent := "a fine book overall indeed" }

def dbOrphan : DB := { books := [], reviews := [reviewOrphan] }

theorem c6_witness :
    updateBookRating dbOrphan 7 = dbOrphan ∧
    reviewSaveHook dbOrphan 7 = dbOrphan ∧
    deleteReview dbOrphan 9 20 =
      ({ dbOrphan with reviews := dbOrphan.reviews.filter (fun r => !(r.rid == 9)) },
       ReviewResult.ok) :=
  ⟨c6_recompute_noop_when_book_absent.1 dbOrphan 7 (by decide),
   c6_recompute_noop_when_book_absent.2.1 dbOrphan 7 (by decide),
   c6_recompute_noop_when_book_absent.2.2 dbOrphan 9 20 reviewOrphan
     (by decide) (by decide) (by decide)⟩

theorem map_congr_mem {α β : Type} (l : List α) (f g : α → β) (h : ∀ a ∈ l, f a = g a) :
    l.map f = l.map g := by
  induction l with
  | nil => rfl
  | cons x xs ih =>
    simp only [List.map_cons, List.cons.injEq]
    exact ⟨h x (List.mem_cons_self x xs), ih (fun a ha => h a (List.mem_cons_of_mem x ha))⟩

theorem reviewsByBookIdField_nil (rs : List ReviewDoc) (k : Nat) :
    reviewsByBookIdField rs k = [] := by
  unfold reviewsByBookIdField
  apply List.filter_eq_nil_iff.mpr
  intro r hr
  have hnone : r.getField "bookId" = none := rfl
  simp [hnone]

theorem recalculateRating_zeroes (db : DB) (k : Nat) (b : BookDoc)
    (hb : b ∈ (recalculateRating db k).books) (hk : b.bid = k) :
    b.communityRating = 0 ∧ b.reviewCount = 0 := by
  simp only [recalculateRating, reviewsByBookIdField_nil, List.length_nil, List.mem_map,
    beq_self_eq_true, if_true, clampTenths] at hb
  obtain ⟨a, ha, rfl⟩ := hb
  by_cases h : a.bid = k
  · simp [h]
  · simp [h] at hk

theorem update_after_recalc (db : DB) (k : Nat) :
    updateBookRating (recalculateRating db k) k = updateBookRating db k := by
  unfold updateBookRating recalculateRating
  simp only [List.map_map, reviewsByBookIdField_nil, List.length_nil, beq_self_eq_true,
    if_true]
  congr 1
  apply map_congr_mem
  intro b hb
  by_cases h : b.bid = k
  · simp [Function.comp, h, clampTenths]
  · simp [Function.comp, h]

theorem update_after_hook (db : DB) (k : Nat) :
    updateBookRating (reviewSaveHook db k) k = updateBookRating db k := by
  unfold reviewSaveHook
  split
  · exact update_after_recalc db k
  · rfl

/-- C4: the Book model recalculateRating and the review router
updateBookRating are not equivalent recompute procedures.  recalculateRating
filters reviews by a field named bookId (absent from the Review schema,
which stores the reference as reviewedBook), so it matches zero reviews for
every book and always persists communityRating = 0 and reviewCount = 0,
while updateBookRating computes both values from the reviews that actually
reference the book; on a book that has a review the two write different
records.  The stored aggregates are nevertheless correct after each write
because updateBookRating runs after the hook-driven recalculateRating and
overwrites exactly the fields it wrote. -/
theorem c4_recalculate_not_equivalent :
    (∀ (rs : List ReviewDoc) (k : Nat), reviewsByBookIdField rs k = []) ∧
    (∀ (db : DB) (k : Nat) (b : BookDoc), b ∈ (recalculateRating db k).books → b.bid = k →
      b.communityRating = 0 ∧ b.reviewCount = 0) ∧
    recalculateRating dbAfterCreate 1 ≠ updateBookRating dbAfterCreate 1 ∧
    (∀ (db : DB) (k : Nat), updateBookRating (reviewSaveHook db k) k = updateBookRating db k) :=
  ⟨reviewsByBookIdField_nil, recalculateRating_zeroes, by decide, update_after_hook⟩

def bookDuneZeroed : BookDoc := { bookDune with communityRating := 0, reviewCount := 0 }

theorem c4_witness :
    reviewsByBookIdField dbAfterCreate.reviews 1 = [] ∧
    (bookDuneZeroed.communityRating = 0 ∧ bookDuneZeroed.reviewCount = 0) ∧
    updateBookRating (reviewSaveHook dbAfterCreate 1) 1 = updateBookRating dbAfterCreate 1 :=
  ⟨c4_recalculate_not_equivalent.1 dbAfterCreate.reviews 1,
   c4_recalculate_not_equivalent.2.1 dbAfterCreate 1 bookDuneZeroed (by decide) (by decide),
   c4_recalculate_not_equivalent.2.2.2 dbAfterCreate 1⟩

theorem applyBookPatch_aggregates (p : BookPatch) (b : BookDoc) :
    (applyBookPatch p b).communityRating = b.communityRating ∧
    (applyBookPatch p b).reviewCount = b.reviewCount := by
  unfold applyBookPatch
  rcases p with ⟨t?, a?, d?, g?, y?⟩
  cases t? <;> cases a? <;> cases d? <;> cases g? <;> cases y? <;> simp

/-- C10: the client-facing book create and book update operations never set
the derived aggregate fields from request input: every book record present
after a create either was already in the store or carries the schema
defaults communityRating = 0 and reviewCount = 0, and a book update leaves
the communityRating and reviewCount of every stored book exactly as they
were, whatever the request contained. -/
theorem c10_aggregates_not_client_writable :
    (∀ (db : DB) (inp : BookInput) (userId : Nat) (nowYear : Int) (b : BookDoc),
      b ∈ (createBook db inp userId nowYear).1.books →
      b ∈ db.books ∨ (b.communityRating = 0 ∧ b.reviewCount = 0)) ∧
    (∀ (db : DB) (bookId requesterId : Nat) (p : BookPatch) (nowYear : Int) (i : Nat),
      (updateBook db bookId requesterId p nowYear).1.books[i]?.map
          (fun b => (b.communityRating, b.reviewCount)) =
        db.books[i]?.map (fun b => (b.communityRating, b.reviewCount))) := by
  constructor
  · intro db inp userId nowYear b hb
    simp only [createBook] at hb
    split at hb
    · exact Or.inl hb
    · split at hb
      · exact Or.inl hb
      · simp only [List.mem_append, List.mem_singleton] at hb
        rcases hb with h | h
        · exact Or.inl h
        · subst h
          exact Or.inr ⟨rfl, rfl⟩
  · intro db bookId requesterId p nowYear i
    unfold updateBook
    split
    · rfl
    · split
      · rfl
      · split
        · rfl
        · split
          · rfl
          · simp only [List.getElem?_map]
            cases hg : db.books[i]? with
            | none => rfl
            | some b =>
              simp only [Option.map_some']
              by_cases h : b.bid = bookId
              · simp [h, (applyBookPatch_aggregates p b).1, (applyBookPatch_aggregates p b).2]
              · simp [h]

def inpWind : BookInput :=
  { title := "The Name of the Wind", author := "Patrick Rothfuss",
    description := "A gifted young man grows into a legend", genre := "Fantasy",
    publishedYear := 2007 }

def patchTitle : BookPatch :=
  { title? := some "Dune Messiah", author? := none, description? := none,
    genre? := none, publishedYear? := none }

theorem c10_witness :
    (bookDuneAfter ∈ dbAfterCreate.books ∨
      (bookDuneAfter.communityRating = 0 ∧ bookDuneAfter.reviewCount = 0)) ∧
    (updateBook dbAfterCreate 1 10 patchTitle 2025).1.books[0]?.map
        (fun b => (b.communityRating, b.reviewCount)) =
      dbAfterCreate.books[0]?.map (fun b => (b.communityRating, b.reviewCount)) :=
  ⟨c10_aggregates_not_client_writable.1 dbAfterCreate inpWind 10 2025 bookDuneAfter
     (by decide),
   c10_aggregates_not_client_writable.2 dbAfterCreate 1 10 patchTitle 2025 0⟩

/-- The invariant that every (book, user) pair has at most one review. -/
def uniquePairs (rs : List ReviewDoc) : Prop :=
  rs.Pairwise (fun r s => ¬(r.reviewedBook = s.reviewedBook ∧ r.reviewAuthor = s.reviewAuthor))

theorem reviewSaveHook_reviews (db : DB) (k : Nat) :
    (reviewSaveHook db k).reviews = db.reviews := by
  unfold reviewSaveHook
  split <;> rfl

theorem insertReview_uniquePairs (rs : List ReviewDoc) (r : ReviewDoc) (rs1 : List ReviewDoc)
    (h : insertReview rs r = some rs1) (hu : uniquePairs rs) : uniquePairs rs1 := by
  unfold insertReview at h
  split at h
  · exact absurd h (by simp)
  · rename_i hany
    injection h with h1
    subst h1
    unfold uniquePairs at hu ⊢
    rw [List.pairwise_append]
    refine ⟨hu, List.pairwise_singleton _ _, ?_⟩
    intro x hx y hy
    simp only [List.mem_singleton] at hy
    subst hy
    intro hcon
    apply hany
    rw [List.any_eq_true]
    exact ⟨x, hx, by simp [hcon.1, hcon.2]⟩

theorem uniquePairs_map_patch (rs : List ReviewDoc) (f : ReviewDoc → ReviewDoc)
    (hf : ∀ r, (f r).reviewedBook = r.reviewedBook ∧ (f r).reviewAuthor = r.reviewAuthor)
    (hu : uniquePairs rs) : uniquePairs (rs.map f) := by
  unfold uniquePairs at hu ⊢
  rw [List.pairwise_map]
  apply hu.imp
  intro a b hab hcon
  refine hab ⟨?_, ?_⟩
  · rw [← (hf a).1, ← (hf b).1]
    exact hcon.1
  · rw [← (hf a).2, ← (hf b).2]
    exact hcon.2

theorem applyReviewOp_uniquePairs (db : DB) (op : ReviewOp)
    (hu : uniquePairs db.reviews) : uniquePairs ((applyReviewOp db op).1).reviews := by
  cases op with
  | create bookId userId q t =>
    simp only [applyReviewOp, createReview]
    split
    · exact hu
    · split
      · exact hu
      · split
        · exact hu
        · split
          · exact hu
          · split
            · exact hu
            · rename_i reviews1 hins
              show uniquePairs
                (updateBookRating (reviewSaveHook { db with reviews := reviews1 } bookId)
                  bookId).reviews
              rw [updateBookRating_reviews, reviewSaveHook_reviews]
              exact insertReview_uniquePairs db.reviews _ reviews1 hins hu
  | update rid uid q? t? =>
    simp only [applyReviewOp, updateReview]
    split
    · exact hu
    · split
      · exact hu
      · split
        · exact hu
        · split
          · exact hu
          · rename_i review heq hne hcon
            show uniquePairs
              (updateBookRating
                { db with reviews := db.reviews.map (fun r =>
                    if r.rid == rid then
                      (match t? with
                        | none =>
                          match q? with
                          | none => r
                          | some q => { r with starRating := q.num.toNat }
                        | some t =>
                          { (match q? with
                             | none => r
                             | some q => { r with starRating := q.num.toNat }) with
                            reviewContent := jsTrim t })
                    else r) }
                review.reviewedBook).reviews
            rw [updateBookRating_reviews]
            apply uniquePairs_map_patch _ _ _ hu
            intro r
            by_cases h : r.rid = rid <;> cases q? <;> cases t? <;> simp [h]
  | delete rid uid =>
    simp only [applyReviewOp, deleteReview]
    split
    · exact hu
    · split
      · exact hu
      · rename_i review heq hne
        show uniquePairs
          (updateBookRating
            (reviewSaveHook { db with reviews := db.reviews.filter (fun r => !(r.rid == rid)) }
              review.reviewedBook)
            review.reviewedBook).reviews
        rw [updateBookRating_reviews, reviewSaveHook_reviews]
        exact List.Pairwise.filter _ hu

theorem insertReview_rejects_pair (rs : List ReviewDoc) (r x : ReviewDoc)
    (hx : x ∈ rs) (h1 : x.reviewedBook = r.reviewedBook) (h2 : x.reviewAuthor = r.reviewAuthor) :
    insertReview rs r = none := by
  unfold insertReview
  rw [if_pos]
  rw [List.any_eq_true]
  exact ⟨x, hx, by simp [h1, h2]⟩

/-- C5: at most one review exists per (book, user) pair — the invariant is
preserved by every review operation — and a createReview attempt that
passes input validation for a pair that already has a review fails with the
duplicate rejection, inserting nothing; the property is enforced both by
the pre-insert lookup of the POST handler and by the unique store-level
index on (reviewedBook, reviewAuthor), which refuses any insert that would
duplicate a pair. -/
theorem c5_unique_review_per_pair :
    (∀ (db : DB) (bookId userId : Nat) (q : Rat) (t : String) (b : BookDoc) (r : ReviewDoc),
      ratingValid q = true → routeTextValid t = true →
      findBook db bookId = some b →
      findReviewPair db.reviews bookId userId = some r →
      createReview db bookId userId q t = (db, ReviewResult.duplicateReview)) ∧
    (∀ (db : DB) (op : ReviewOp), uniquePairs db.reviews →
      uniquePairs ((applyReviewOp db op).1).reviews) ∧
    (∀ (rs : List ReviewDoc) (r x : ReviewDoc), x ∈ rs →
      x.reviewedBook = r.reviewedBook → x.reviewAuthor = r.reviewAuthor →
      insertReview rs r = none) := by
  refine ⟨?_, applyReviewOp_uniquePairs, insertReview_rejects_pair⟩
  intro db bookId userId q t b r hq ht hbook hpair
  simp [createReview, hq, ht, hbook, hpair]

def reviewW1 : ReviewDoc :=
  { rid := 1, reviewedBook := 1, reviewAuthor := 20, starRating := 5,
    reviewContent := "an absolutely wonderful read" }

theorem c5_witness :
    createReview dbAfterCreate 1 20 4 "another thoughtful opinion here" =
      (dbAfterCreate, ReviewResult.duplicateReview) ∧
    uniquePairs ((applyReviewOp dbAfterCreate
      (ReviewOp.create 1 21 4 "a very enjoyable adventure")).1).reviews ∧
    insertReview dbAfterCreate.reviews reviewW1 = none :=
  ⟨c5_unique_review_per_pair.1 dbAfterCreate 1 20 4 "another thoughtful opinion here"
     bookDuneAfter reviewW1 (by decide) (by decide) (by decide) (by decide),
   c5_unique_review_per_pair.2.1 dbAfterCreate (ReviewOp.create 1 21 4 "a very enjoyable adventure")
     (by unfold uniquePairs; decide),
   c5_unique_review_per_pair.2.2 dbAfterCreate.reviews reviewW1 reviewW1 (by decide) rfl rfl⟩

/-- C7 counterexample: the request (book 1, user 20, rating 5, text
"hello") meets the documented bounds — the rating is an integer in [1,5]
and the text is non-empty and under the cap — yet createReview rejects it
(the Review schema requires at least 10 characters), inserting nothing; so
validation acceptance is not exactly the documented rating/text bounds. -/
theorem c7_counterexample :
    createReview dbDune 1 20 5 "hello" = (dbDune, ReviewResult.schemaError) ∧
    ratingValid 5 = true ∧ routeTextValid "hello" = true := by decide

/-- C7 amended: createReview rejects with the 400 validation error exactly
when the rating is not an integer in [1,5] or the trimmed text length is
outside [1,500]; a request passing those route checks can additionally be
rejected (as a 500 schema failure, inserting nothing and changing no
aggregate) when the trimmed text fails the Review schema bounds (length in
[10,1000] with at least 5 word characters); a request meeting the route
checks and the schema bounds, for an existing book and a fresh (book, user)
pair, is not rejected. -/
theorem c7_validation_amended :
    (∀ (db : DB) (bookId userId : Nat) (q : Rat) (t : String),
      ¬(ratingValid q = true ∧ routeTextValid t = true) →
      createReview db bookId userId q t = (db, ReviewResult.validationError)) ∧
    (∀ (db : DB) (bookId userId : Nat) (q : Rat) (t : String),
      ratingValid q = true → routeTextValid t = true →
      (createReview db bookId userId q t).2 ≠ ReviewResult.validationError) ∧
    (∀ (db : DB) (bookId userId : Nat) (q : Rat) (t : String) (b : BookDoc),
      ratingValid q = true → routeTextValid t = true →
      findBook db bookId = some b →
      findReviewPair db.reviews bookId userId = none →
      schemaContentValid (jsTrim t) = false →
      createReview db bookId userId q t = (db, ReviewResult.schemaError)) ∧
    (∀ (db : DB) (bookId userId : Nat) (q : Rat) (t : String) (b : BookDoc),
      ratingValid q = true → routeTextValid t = true →
      findBook db bookId = some b →
      findReviewPair db.reviews bookId userId = none →
      schemaContentValid (jsTrim t) = true →
      (createReview db bookId userId q t).2 = ReviewResult.ok) := by
  refine ⟨?_, ?_, ?_, ?_⟩
  · intro db bookId userId q t hnot
    have h1 : (ratingValid q && routeTextValid t) = false := by
      cases hq : ratingValid q <;> cases ht : routeTextValid t <;> simp_all
    simp [createReview, h1]
  · intro db bookId userId q t hq ht
    simp only [createReview, hq, ht, Bool.and_self, Bool.not_true, Bool.false_eq_true, if_false]
    split
    · simp
    · split
      · simp
      · split
        · simp
        · split
          · simp
          · simp
  · intro db bookId userId q t b hq ht hbook hpair hschema
    simp [createReview, hq, ht, hbook, hpair, hschema]
  · intro db bookId userId q t b hq ht hbook hpair hschema
    unfold findReviewPair at hpair
    have hins : insertReview db.reviews
        { rid := nextReviewId db.reviews, reviewedBook := bookId, reviewAuthor := userId,
          starRating := q.num.toNat, reviewContent := collapseWs (jsTrim t) } =
        some (db.reviews ++
          [{ rid := nextReviewId db.reviews, reviewedBook := bookId, reviewAuthor := userId,
             starRating := q.num.toNat, reviewContent := collapseWs (jsTrim t) }]) := by
      unfold insertReview
      rw [if_neg]
      intro hany
      rw [List.any_eq_true] at hany
      obtain ⟨x, hx, hxp⟩ := hany
      apply List.find?_eq_none.mp hpair x hx
      have e1 : x.getField "reviewedBook" = some x.reviewedBook := rfl
      have e2 : x.getField "reviewAuthor" = some x.reviewAuthor := rfl
      simp only [Bool.and_eq_true, beq_iff_eq] at hxp
      simp [e1, e2, hxp.1, hxp.2]
    simp [createReview, hq, ht, hbook, hpair, hschema, hins, findReviewPair]

theorem c7_witness :
    createReview dbDune 1 20 (7 : Rat) "a genuinely pleasant reading experience" =
      (dbDune, ReviewResult.validationError) ∧
    (createReview dbDune 1 20 5 "a genuinely pleasant reading experience").2 ≠
      ReviewResult.validationError ∧
    createReview dbDune 1 20 5 "hi there" = (dbDune, ReviewResult.schemaError) ∧
    (createReview dbDune 1 20 5 "a genuinely pleasant reading experience").2 =
      ReviewResult.ok :=
  ⟨c7_validation_amended.1 dbDune 1 20 7 "a genuinely pleasant reading experience" (by decide),
   c7_validation_amended.2.1 dbDune 1 20 5 "a genuinely pleasant reading experience"
     (by decide) (by decide),
   c7_validation_amended.2.2.1 dbDune 1 20 5 "hi there" bookDune
     (by decide) (by decide) (by decide) (by decide) (by decide),
   c7_validation_amended.2.2.2 dbDune 1 20 5 "a genuinely pleasant reading experience" bookDune
     (by decide) (by decide) (by decide) (by decide) (by decide)⟩

/-- C8 counterexample: user 99 is not the author of review 1 (user 20),
yet updateReview with an out-of-range rating patch fails with the 400
validation error, not ForbiddenError: the route validators run before the
author check, so the claim does not hold for every patch. -/
theorem c8_counterexample :
    updateReview dbAfterCreate 1 99 (some 7) none = (dbAfterCreate, ReviewResult.validationError) ∧
    (findReview dbAfterCreate 1).map ReviewDoc.reviewAuthor = some 20 := by decide

/-- C8 amended: for a requester who is not the review author, updateReview
fails with ForbiddenError when the patch passes the route input validation
(and with the validation error when it does not), and deleteReview always
fails with ForbiddenError; in every case the store — the review and every
book aggregate — is left completely unchanged. -/
theorem c8_nonauthor_forbidden_amended :
    (∀ (db : DB) (rid uid : Nat) (q? : Option Rat) (t? : Option String) (review : ReviewDoc),
      reviewPatchValid q? t? = true →
      findReview db rid = some review → review.reviewAuthor ≠ uid →
      updateReview db rid uid q? t? = (db, ReviewResult.forbidden)) ∧
    (∀ (db : DB) (rid uid : Nat) (q? : Option Rat) (t? : Option String) (review : ReviewDoc),
      findReview db rid = some review → review.reviewAuthor ≠ uid →
      (updateReview db rid uid q? t?).1 = db) ∧
    (∀ (db : DB) (rid uid : Nat) (review : ReviewDoc),
      findReview db rid = some review → review.reviewAuthor ≠ uid →
      deleteReview db rid uid = (db, ReviewResult.forbidden)) := by
  refine ⟨?_, ?_, ?_⟩
  · intro db rid uid q? t? review hval hfind hne
    simp [updateReview, hval, hfind, hne]
  · intro db rid uid q? t? review hfind hne
    by_cases hval : reviewPatchValid q? t? = true
    · simp [updateReview, hval, hfind, hne]
    · simp only [Bool.not_eq_true] at hval
      simp [updateReview, hval]
  · intro db rid uid review hfind hne
    simp [deleteReview, hfind, hne]

theorem c8_witness :
    updateReview dbAfterCreate 1 99 (some 2) none = (dbAfterCreate, ReviewResult.forbidden) ∧
    (updateReview dbAfterCreate 1 99 (some 7) none).1 = dbAfterCreate ∧
    deleteReview dbAfterCreate 1 99 = (dbAfterCreate, ReviewResult.forbidden) :=
  ⟨c8_nonauthor_forbidden_amended.1 dbAfterCreate 1 99 (some 2) none reviewW1
     (by decide) (by decide) (by decide),
   c8_nonauthor_forbidden_amended.2.1 dbAfterCreate 1 99 (some 7) none reviewW1
     (by decide) (by decide),
   c8_nonauthor_forbidden_amended.2.2 dbAfterCreate 1 99 reviewW1 (by decide) (by decide)⟩

/-- C3: deleting a book succeeds and removes the book, but the cascade
Review.deleteMany({ bookId }) filters by a field name the Review schema
does not have (the reference is stored as reviewedBook), so it deletes no
review documents: after the creator of book 1 deletes it, the review of
book 1 survives as an orphan with a dangling reference, contrary to the
route's own message that the associated reviews were deleted. -/
theorem c3_cascade_delete_bug :
    deleteBook dbAfterCreate 1 10 = ({ books := [], reviews := [reviewW1] }, BookResult.ok) ∧
    reviewW1.reviewedBook = 1 ∧
    dbAfterCreate.reviews.all (fun r => r.reviewedBook == 1) = true := by decide

end BookReviewApp
